import Mathlib

/-!
Verification development for the HealthyBitesAI (Food Doctor) frontend.

Shallow embedding of the code under: Frontend/components/AnalysisDisplay.tsx
(extractHealthRating, parseAnalysisText), Frontend/app/ingredients/[id]/page.tsx
(IngredientsPage effect and render), the home page (handleSearch,
handleBarcodeSearch), the analysis page (AnalysisPage effect and render,
tryUseCache) and lib/config (getApiUrl, API_CONFIG).

JavaScript regular expressions are embedded as executable Lean functions that
realise the exact leftmost-match backtracking semantics of the concrete
patterns appearing in the source; each function carries a comment naming the
regex piece it implements.  JavaScript truthiness of strings and of optional
fields is modelled explicitly wherever the source relies on it.
-/

namespace HealthyBites

/-! ### JavaScript primitives -/

/-- The character class matched by the regex class backslash-s and trimmed by
String.prototype.trim in ECMAScript: WhiteSpace union LineTerminator. -/
def isJsWs (c : Char) : Bool :=
  c == ' ' || c == '\t' || c == '\n' || c == '\r' ||
  c.toNat == 0x0B || c.toNat == 0x0C || c.toNat == 0xA0 || c.toNat == 0x1680 ||
  (0x2000 ≤ c.toNat && c.toNat ≤ 0x200A) ||
  c.toNat == 0x2028 || c.toNat == 0x2029 || c.toNat == 0x202F ||
  c.toNat == 0x205F || c.toNat == 0x3000 || c.toNat == 0xFEFF

/-- JavaScript String.prototype.trim on a character list. -/
def jsTrim (l : List Char) : List Char :=
  ((l.dropWhile isJsWs).reverse.dropWhile isJsWs).reverse

/-- Case-insensitive character comparison (the regex i flag; ASCII-adequate
simple case folding via Char.toLower). -/
def lowerEq (a b : Char) : Bool := a.toLower == b.toLower

/-- If the text starts with the given literal word (case-insensitively),
return the remainder after it. -/
def stripCI : List Char → List Char → Option (List Char)
  | l, [] => some l
  | [], _ :: _ => none
  | a :: as, b :: bs => if lowerEq a b then stripCI as bs else none

/-- Does the text start with the given literal word, case-insensitively? -/
def headsCI (l pat : List Char) : Bool := (stripCI l pat).isSome

/-- JavaScript truthiness of a possibly-absent string field: undefined and
the empty string are falsy. -/
def strTruthy : Option String → Bool
  | some s => !s.isEmpty
  | none => false

/-! ### parseAnalysisText (AnalysisDisplay.tsx lines 38 to 94)

Each section pattern is the regex  HEADER:?\s*([\s\S]*?)(?=\n\s*NEXT|$)  with
the i flag, where NEXT is the alternation of the six header words.  Because
everything after the literal HEADER can always match (the optional colon, a
possibly empty whitespace run, a lazy capture that may stop at end of input
where the dollar anchor holds), the regex matches the text exactly when HEADER
occurs case-insensitively, at the leftmost such occurrence; the colon is then
taken when present, the whitespace run is maximal, and the lazy capture is the
shortest prefix of the rest ending where the lookahead holds. -/

/-- The six header words of the common lookahead alternation
(AnalysisDisplay.tsx line 47). -/
def nextHeaderWords : List (List Char) :=
  [ "SUMMARY".toList, "KEY RISKS".toList, "POSITIVE HIGHLIGHTS".toList,
    "RECOMMENDATION".toList, "MARKETING TRAPS".toList, "OVERALL VERDICT".toList ]

/-- Inside the lookahead, after the mandatory newline:  \s*NEXT  — some run of
whitespace followed by one of the six header words. -/
def wsThenHeader : List Char → Bool
  | [] => false
  | c :: rest =>
    nextHeaderWords.any (fun h => headsCI (c :: rest) h) ||
    (isJsWs c && wsThenHeader rest)

/-- The lookahead  (?=\n\s*NEXT|$) : holds at end of input, or at a newline
followed by whitespace and another header word. -/
def sectionStop : List Char → Bool
  | [] => true
  | c :: rest => c == '\n' && wsThenHeader rest

/-- The lazy capture  [\s\S]*?  bounded by the lookahead: the shortest prefix
ending at a position where sectionStop holds. -/
def lazyCapture : List Char → List Char
  | [] => []
  | c :: rest => if sectionStop (c :: rest) then [] else c :: lazyCapture rest

/-- Leftmost case-insensitive occurrence of a literal header word; returns the
text following it. -/
def findHeader : List Char → List Char → Option (List Char)
  | [], pat => if pat.isEmpty then some [] else none
  | a :: as, pat =>
    match stripCI (a :: as) pat with
    | some r => some r
    | none => findHeader as pat

/-- Full match of one section pattern
 HEADER:?\s*([\s\S]*?)(?=\n\s*NEXT|$)   (i flag) against the whole text:
none when the regex does not match, otherwise the capture group. -/
def matchSection (text : List Char) (header : String) : Option (List Char) :=
  match findHeader text header.toList with
  | none => none
  | some r =>
    let r1 := match r with
      | ':' :: t => t
      | _ => r
    let r2 := r1.dropWhile isJsWs
    some (lazyCapture r2)

/-- One entry of the sectionPatterns array: the header word of its regex, the
display title, and the color (the icon, a React element, is not data). -/
structure SectionPattern where
  header : String
  title : String
  color : String
deriving DecidableEq

/-- The fixed sectionPatterns array (AnalysisDisplay.tsx lines 50 to 81). -/
def sectionPatterns : List SectionPattern :=
  [ ⟨ "SUMMARY", "Summary", "purple" ⟩,
    ⟨ "KEY RISKS", "Key Risks", "red" ⟩,
    ⟨ "POSITIVE HIGHLIGHTS", "Positive Highlights", "green" ⟩,
    ⟨ "RECOMMENDATION", "Recommendation", "yellow" ⟩,
    ⟨ "MARKETING TRAPS", "Marketing Traps", "orange" ⟩ ]

/-- A parsed display section (the Section interface, minus the React icon). -/
structure Section where
  title : String
  content : String
  color : String
deriving DecidableEq

/-- The body of the forEach callback (AnalysisDisplay.tsx lines 83 to 91):
 match && match[1]  (an empty capture is falsy), then content = match[1].trim(),
pushed only when non-empty. -/
def sectionFor (text : List Char) (sp : SectionPattern) : Option Section :=
  match matchSection text sp.header with
  | none => none
  | some cap =>
    if cap.isEmpty then none
    else
      let content := jsTrim cap
      if content.isEmpty then none
      else some ⟨ sp.title, String.mk content, sp.color ⟩

/-- parseAnalysisText (AnalysisDisplay.tsx lines 38 to 94): fold over the
fixed pattern sequence, pushing each matched, non-empty section. -/
def parseAnalysisText (text : String) : List Section :=
  sectionPatterns.foldl
    (fun acc sp =>
      match sectionFor text.toList sp with
      | some s => acc ++ [s]
      | none => acc) []

/-! ### extractHealthRating (AnalysisDisplay.tsx lines 19 to 36)

Rating regex:  (?:Health\s+)?Rating[:\s]+(\d+(?:\.\d+)?)\s*\/\s*10   (i flag).
Verdict regex:  OVERALL VERDICT:?\s*([^\n]+)   (i flag).
Both are matched leftmost-first; the functions below realise the exact
backtracking behaviour of each piece. -/

/-- After the literal Rating:
 [:\s]+(\d+(?:\.\d+)?)\s*\/\s*10 .  The separator class and the digit class
are disjoint, and the slash and the literal 10 conflict with no preceding
greedy run, so each greedy run is simply maximal.  Returns the capture group:
the decimal numeral. -/
def ratingAfterWord (r : List Char) : Option (List Char) :=
  let sep := r.takeWhile (fun c => c == ':' || isJsWs c)
  let r1 := r.drop sep.length
  if sep.isEmpty then none
  else
    let ip := r1.takeWhile Char.isDigit
    let r2 := r1.drop ip.length
    if ip.isEmpty then none
    else
      -- (?:\.\d+)? greedy: take the fraction when a dot with at least one
      -- digit follows; declining it can never rescue the tail, because the
      -- tail then restarts at the dot, which  \s*\/  rejects at once.
      let fracAndRest : List Char × List Char :=
        match r2 with
        | '.' :: r3 =>
          let fp := r3.takeWhile Char.isDigit
          if fp.isEmpty then ([], r2) else ('.' :: fp, r3.drop fp.length)
        | _ => ([], r2)
      let r4 := fracAndRest.2.dropWhile isJsWs
      match r4 with
      | '/' :: r5 =>
        if (r5.dropWhile isJsWs).take 2 == [ '1', '0' ] then
          some (ip ++ fracAndRest.1)
        else none
      | _ => none

/-- The whole rating pattern anchored at the current position:
 (?:Health\s+)?  is tried with the prefix first (greedy option), then without. -/
def ratingNumeralAt (l : List Char) : Option (List Char) :=
  let noPfx : Option (List Char) :=
    match stripCI l ("Rating".toList) with
    | some r => ratingAfterWord r
    | none => none
  match stripCI l ("Health".toList) with
  | some r =>
    let ws := r.takeWhile isJsWs
    if ws.isEmpty then noPfx
    else
      match stripCI (r.drop ws.length) ("Rating".toList) with
      | some r2 =>
        match ratingAfterWord r2 with
        | some cap => some cap
        | none => noPfx
      | none => noPfx
  | none => noPfx

/-- Leftmost match of the rating pattern over the whole text; returns the
captured numeral. -/
def findRatingNumeral : List Char → Option (List Char)
  | [] => none
  | a :: as =>
    match ratingNumeralAt (a :: as) with
    | some cap => some cap
    | none => findRatingNumeral as

/-- The value of a digit list read in base ten. -/
def digitsToNat (l : List Char) : Nat :=
  l.foldl (fun n c => 10 * n + (c.toNat - '0'.toNat)) 0

/-- parseFloat on a numeral of shape  \d+(\.\d+)? , taken at its exact
rational value. -/
def parseNumeral (l : List Char) : ℚ :=
  let ip := l.takeWhile Char.isDigit
  let rest := l.drop ip.length
  match rest with
  | '.' :: frac => (digitsToNat ip : ℚ) + (digitsToNat frac : ℚ) / (10 ^ frac.length : ℚ)
  | _ => (digitsToNat ip : ℚ)

/-- The tail of the verdict pattern,  \s*([^\n]+) , with the greedy whitespace
run backtracking until the one-or-more non-newline capture can start. -/
def wsCap : List Char → Option (List Char)
  | [] => none
  | c :: rest =>
    if isJsWs c then
      match wsCap rest with
      | some cap => some cap
      | none =>
        if c == '\n' then none
        else some ((c :: rest).takeWhile (fun d => d ≠ '\n'))
    else some ((c :: rest).takeWhile (fun d => d ≠ '\n'))

/-- After the literal OVERALL VERDICT:  :?\s*([^\n]+)  — the greedy optional
colon is tried first, and on failure the match resumes without it. -/
def verdictTail (r : List Char) : Option (List Char) :=
  match r with
  | ':' :: r1 =>
    match wsCap r1 with
    | some cap => some cap
    | none => wsCap r
  | _ => wsCap r

/-- Leftmost match of  OVERALL VERDICT:?\s*([^\n]+)  (i flag); returns the
capture group. -/
def findVerdictCapture : List Char → Option (List Char)
  | [] => none
  | a :: as =>
    match stripCI (a :: as) ("OVERALL VERDICT".toList) with
    | some r =>
      match verdictTail r with
      | some cap => some cap
      | none => findVerdictCapture as
    | none => findVerdictCapture as

/-- The HealthRating interface (AnalysisDisplay.tsx lines 14 to 17).  The
score, produced by parseFloat on the captured numeral, is modelled at its
exact rational value. -/
structure HealthRating where
  score : ℚ
  verdict : String
deriving DecidableEq

/-- extractHealthRating (AnalysisDisplay.tsx lines 19 to 36). -/
def extractHealthRating (text : String) : Option HealthRating :=
  match findRatingNumeral text.toList with
  | none => none
  | some numeral =>
    let verdict : String :=
      match findVerdictCapture text.toList with
      | some cap => String.mk (jsTrim cap)
      | none => ""
    some ⟨ parseNumeral numeral, verdict ⟩

/-! ### Data model (home page, analysis page) -/

/-- The Product interface of the home page. -/
structure Product where
  product_name : String
  brand : String
  id : String
  image_url : String
deriving DecidableEq

/-- The AnalysisResponse interface of the analysis page (part of the
transient UI data model). -/
structure AnalysisResponse where
  product_name : String
  analysis_sections : List String
deriving DecidableEq

/-! ### lib/config (getApiUrl, API_CONFIG, getBaseUrl) -/

/-- The execution environment consulted by getBaseUrl:  typeof window  and
 process.env.NEXT_PUBLIC_API_URL  (none models an unset variable). -/
structure JsEnv where
  isClient : Bool
  envApiUrl : Option String
deriving DecidableEq

/-- getBaseUrl: in the browser, the env URL when truthy and the empty string
(same origin) otherwise; server-side,  env || localhost fallback. -/
def getBaseUrl (e : JsEnv) : String :=
  if e.isClient then
    match e.envApiUrl with
    | some u => if u.isEmpty then "" else u
    | none => ""
  else
    match e.envApiUrl with
    | some u => if u.isEmpty then "http://127.0.0.1:8000" else u
    | none => "http://127.0.0.1:8000"

/-- The keys of API_CONFIG.ENDPOINTS. -/
inductive Endpoint where
  | SEARCH | ANALYZE | PRODUCT | OCR | BARCODE
deriving DecidableEq

/-- API_CONFIG.ENDPOINTS. -/
def endpointTemplate : Endpoint → String
  | .SEARCH => "/api/v1/search"
  | .ANALYZE => "/api/v1/analyze/product"
  | .PRODUCT => "/api/v1/product"
  | .OCR => "/api/v1/ocr"
  | .BARCODE => "/api/v1/barcode"

/-- getApiUrl(endpoint, path?):  if (path)  is a truthiness test, so an empty
path string behaves like an absent one. -/
def getApiUrl (e : JsEnv) (endpoint : Endpoint) (path : Option String) : String :=
  let baseEndpoint := endpointTemplate endpoint
  let baseUrl := getBaseUrl e
  match path with
  | some p => if p.isEmpty then baseUrl ++ baseEndpoint else baseUrl ++ baseEndpoint ++ "/" ++ p
  | none => baseUrl ++ baseEndpoint

/-- The analysis request issued by the analysis page:
 fetch(getApiUrl(ANALYZE, id), method POST) , as URL and method. -/
def analyzeRequest (e : JsEnv) (id : String) : String × String :=
  (getApiUrl e .ANALYZE (some id), "POST")

/-! ### The shared result-context cache and window.__FD_CACHE__

The context cache of AppProviders and the window object are plain keyed
JavaScript objects; a stored value may be an array of section strings, a
plain string, some other object (for the analysis page only its
 analysis_sections  field, for the ingredients page also its  image_url
field and its  String(...)  coercion matter), or null. -/

inductive CacheVal where
  | arr (sections : List String)
  | str (s : String)
  | obj (sections? : Option (List String)) (imageUrl? : Option String) (asString : String)
  | nul
deriving DecidableEq

/-- JavaScript truthiness of a cached value: arrays and objects are truthy,
a string is truthy when non-empty, null is falsy. -/
def CacheVal.truthy : CacheVal → Bool
  | .arr _ => true
  | .str s => !s.isEmpty
  | .obj _ _ _ => true
  | .nul => false

/-- A keyed in-memory cache. -/
def Cache : Type := String → Option CacheVal

/-- The truthiness test  c && c[id]  on a cache. -/
def cacheHit (c : Cache) (id : String) : Bool :=
  match c id with
  | some v => v.truthy
  | none => false

/-- Store a value under a key (setCacheEntry and the window-cache spread). -/
def cacheSet (c : Cache) (id : String) (v : CacheVal) : Cache :=
  fun k => if k = id then some v else c k

/-- JavaScript truthiness of a string-or-null state variable. -/
def jsStrTruthy : Option String → Bool
  | some s => !s.isEmpty
  | none => false

/-- JavaScript  value || default  on a possibly-absent string. -/
def jsOr (o : Option String) (d : String) : String :=
  if strTruthy o then o.getD "" else d

/-- What a page renders: the loading view, an error panel with its heading
and message, or the content view. -/
inductive Render where
  | loadingView
  | errorPanel (title msg : String)
  | contentView
deriving DecidableEq

/-! ### AnalysisPage (src/unnamed Frontend analysis page, lines 148 to 250) -/

/-- The state hooks of AnalysisPage. -/
structure AnalysisPageState where
  analysisText : Option String
  analysisSections : List String
  loading : Bool
  error : Option String
deriving DecidableEq

/-- The JSON body of a successful analyze response: an object with an
optional  analysis_sections  array, or a bare string (the fallback branch). -/
inductive AnalyzeBody where
  | obj (sections? : Option (List String))
  | strBody (s : String)
deriving DecidableEq

/-- Outcome of the single analyze fetch. -/
inductive AnalyzeFetch where
  | ok (body : AnalyzeBody)
  | notOk
  | netError (msg : String)
deriving DecidableEq

/-- The shared branch of tryUseCache applied to a truthy cached value:
arrays become sections, strings become text, other objects contribute their
 analysis_sections  array when it exists and their  String(...)  coercion
otherwise. -/
def applyCached (st : AnalysisPageState) (v : CacheVal) : AnalysisPageState :=
  match v with
  | .arr l => { st with analysisSections := l }
  | .str s => { st with analysisText := some s }
  | .obj (some l) _ _ => { st with analysisSections := l }
  | .obj none _ asString => { st with analysisText := some asString }
  | .nul => { st with analysisText := some "null" }

/-- Result of running the AnalysisPage effect once: final state, number of
analyze requests issued, and both caches afterwards. -/
structure AnalysisEffectResult where
  state : AnalysisPageState
  apiFetches : Nat
  win : Cache
  ctx : Cache

/-- The AnalysisPage useEffect body for a given id: try the window cache,
then the context cache (tryUseCache); on a miss issue the one POST analyze
fetch and dispatch on its outcome exactly as the code does. -/
def runAnalysisEffect (win ctx : Cache) (id : String) (f : AnalyzeFetch) :
    AnalysisEffectResult :=
  let st0 : AnalysisPageState := ⟨ none, [], true, none ⟩
  match win id with
  | some v =>
    if v.truthy then ⟨ { applyCached st0 v with loading := false }, 0, win, ctx ⟩
    else runAnalysisCtx win ctx id f st0
  | none => runAnalysisCtx win ctx id f st0
where
  /-- The second try block of tryUseCache: a falsy window entry falls
  through to the context cache. -/
  runAnalysisCtx (win ctx : Cache) (id : String) (f : AnalyzeFetch)
      (st0 : AnalysisPageState) : AnalysisEffectResult :=
    match ctx id with
    | some v =>
      if v.truthy then ⟨ { applyCached st0 v with loading := false }, 0, win, ctx ⟩
      else runAnalysisFetch win ctx id f st0
    | none => runAnalysisFetch win ctx id f st0
  runAnalysisFetch (win ctx : Cache) (id : String) (f : AnalyzeFetch)
      (st0 : AnalysisPageState) : AnalysisEffectResult :=
    match f with
    | .ok (.obj (some l)) =>
      ⟨ { st0 with analysisSections := l, loading := false }, 1,
        cacheSet win id (.arr l), cacheSet ctx id (.arr l) ⟩
    | .ok (.obj none) =>
      ⟨ { st0 with loading := false }, 1, win, ctx ⟩
    | .ok (.strBody s) =>
      ⟨ { st0 with analysisText := some s, loading := false }, 1,
        cacheSet win id (.str s), cacheSet ctx id (.str s) ⟩
    | .notOk =>
      ⟨ { st0 with error := some "Failed to fetch analysis", loading := false }, 1,
        win, ctx ⟩
    | .netError msg =>
      ⟨ { st0 with error := some msg, loading := false }, 1, win, ctx ⟩

/-- The AnalysisPage render dispatch: the loading animation, else the
Analysis Failed panel when  error || (!analysisText && sections empty) ,
else the analysis view. -/
def renderAnalysis (st : AnalysisPageState) : Render :=
  if st.loading then .loadingView
  else if jsStrTruthy st.error ||
      (!jsStrTruthy st.analysisText && st.analysisSections.isEmpty) then
    .errorPanel "Analysis Failed"
      (if jsStrTruthy st.error then st.error.getD ""
       else "Could not retrieve analysis data. Please try again.")
  else .contentView

/-! ### IngredientsPage (Frontend/app/ingredients/[id]/page.tsx) -/

/-- The state hooks of IngredientsPage;  data  holds whatever JSON-like value
was cached or fetched. -/
structure IngredientsState where
  data : Option CacheVal
  loading : Bool
  error : Option String
deriving DecidableEq

/-- Outcome of the single product fetch. -/
inductive ProductFetch where
  | ok (body : CacheVal)
  | notOk
  | netError (msg : String)
deriving DecidableEq

/-- Truthiness of  d.image_url  for a fetched body (undefined on arrays and
strings, hence falsy); the null case is handled at the call site because
there the property access throws. -/
def imageUrlFalsy : CacheVal → Bool
  | .arr _ => true
  | .str _ => true
  | .obj _ img? _ => !strTruthy img?
  | .nul => true

/-- The follow-up Open Food Facts image fix-up applied to the fetched body:
 setData(prev => (spread of (prev || d)) with image_url := img) .  Spreading
an array or a plain string produces an object with neither section list nor
meaningful coercion; only the object case preserves its fields. -/
def applyImg (d : CacheVal) (img : String) : CacheVal :=
  match d with
  | .obj s? _ a => .obj s? (some img) a
  | _ => .obj none (some img) "[object Object]"

/-- Result of running the IngredientsPage effect once. -/
structure IngredientsEffectResult where
  state : IngredientsState
  apiFetches : Nat
  offFetches : Nat
  win : Cache
  ctx : Cache

/-- The IngredientsPage useEffect body: the context cache is consulted (the
window cache is written on success but never read on this page); on a miss,
the one product fetch runs, and on its success an extra Open Food Facts
image request fires exactly when the body has no truthy  image_url , the id
is non-empty and all digits, and the body is not null (a null body throws
inside the guarded block before the request).  offImg is the image that
request would deliver, when it fires and one is found. -/
def runIngredientsEffect (_win ctx : Cache) (id : String) (f : ProductFetch)
    (offImg : Option String) : IngredientsEffectResult :=
  let st0 : IngredientsState := ⟨ none, true, none ⟩
  match ctx id with
  | some v =>
    if v.truthy then ⟨ { st0 with data := some v, loading := false }, 0, 0, _win, ctx ⟩
    else runIngredientsFetch _win ctx id f offImg st0
  | none => runIngredientsFetch _win ctx id f offImg st0
where
  runIngredientsFetch (win ctx : Cache) (id : String) (f : ProductFetch)
      (offImg : Option String) (st0 : IngredientsState) : IngredientsEffectResult :=
    match f with
    | .ok d =>
      let win1 := cacheSet win id d
      let ctx1 := cacheSet ctx id d
      let offFires := d ≠ CacheVal.nul && imageUrlFalsy d &&
        !id.isEmpty && id.toList.all Char.isDigit
      if offFires then
        if strTruthy offImg then
          ⟨ { st0 with data := some (applyImg d (offImg.getD "")), loading := false },
            1, 1, win1, ctx1 ⟩
        else ⟨ { st0 with data := some d, loading := false }, 1, 1, win1, ctx1 ⟩
      else ⟨ { st0 with data := some d, loading := false }, 1, 0, win1, ctx1 ⟩
    | .notOk =>
      ⟨ { st0 with error := some "Failed to fetch ingredients", loading := false },
        1, 0, win, ctx ⟩
    | .netError msg =>
      ⟨ { st0 with error := some msg, loading := false }, 1, 0, win, ctx ⟩

/-- The IngredientsPage render dispatch: the loading view, else the
Error Loading Ingredients panel when  error || !data , else the
ingredients view. -/
def renderIngredients (st : IngredientsState) : Render :=
  if st.loading then .loadingView
  else if jsStrTruthy st.error ||
      !(match st.data with | some v => v.truthy | none => false) then
    .errorPanel "Error Loading Ingredients"
      (if jsStrTruthy st.error then st.error.getD "" else "No data found")
  else .contentView

/-! ### Home page (handleSearch, handleBarcodeSearch) -/

inductive SearchType where
  | text | barcode
deriving DecidableEq

/-- The search-related state hooks of the home page. -/
structure HomeState where
  searchQuery : String
  searchResults : List Product
  loading : Bool
  hasSearched : Bool
  lastSearchType : SearchType
deriving DecidableEq

/-- Outcome of the one search fetch;  products?  is the  data.products
field of the JSON body, possibly missing. -/
inductive SearchFetch where
  | ok (products? : Option (List Product))
  | notOk (status : Nat)
  | netError
deriving DecidableEq

/-- handleSearch: an all-whitespace query returns before touching any state
or issuing a request; otherwise one request runs and the results (or an
empty list on any failure) land in state, with a cache write of the key
 lastSearchResults  on success only.  Returns the final state, the number of
requests issued, and the cache writes performed. -/
def handleSearch (st : HomeState) (query : String) (f : SearchFetch) :
    HomeState × Nat × List (String × List Product) :=
  if (jsTrim query.toList).isEmpty then (st, 0, [])
  else
    match f with
    | .ok ps? =>
      ( { st with
            searchResults := ps?.getD [], loading := false,
            hasSearched := true, lastSearchType := .text },
        1, [ ("lastSearchResults", ps?.getD []) ] )
    | .notOk _ =>
      ( { st with
            searchResults := [], loading := false,
            hasSearched := true, lastSearchType := .text }, 1, [] )
    | .netError =>
      ( { st with
            searchResults := [], loading := false,
            hasSearched := true, lastSearchType := .text }, 1, [] )

/-- The JSON body of a barcode response; every field may be missing. -/
structure BarcodeBody where
  product_name : Option String
  id : Option String
  brand : Option String
  image_url : Option String
deriving DecidableEq

/-- Outcome of the one barcode fetch;  timeout  is the 13-second
Promise.race rejection. -/
inductive BarcodeFetch where
  | ok (body : BarcodeBody)
  | notOk (status : Nat)
  | netError
  | timeout
deriving DecidableEq

/-- handleBarcodeSearch: always marks the search as performed and of barcode
type, copies the barcode into the query, and issues exactly one request;
the results hold the single product built from a well-formed ok body
(brand and image URL defaulted through  ||  when falsy) and are empty in
every other case. -/
def handleBarcodeSearch (st : HomeState) (barcode : String) (f : BarcodeFetch) :
    HomeState × Nat :=
  let base : HomeState :=
    { st with
        searchQuery := barcode, searchResults := [], loading := false,
        hasSearched := true, lastSearchType := .barcode }
  match f with
  | .ok b =>
    if strTruthy b.product_name && strTruthy b.id then
      ( { base with
            searchResults :=
              [ ⟨ b.product_name.getD "", jsOr b.brand "Unknown Brand",
                  b.id.getD "", jsOr b.image_url "" ⟩ ] }, 1 )
    else (base, 1)
  | .notOk _ => (base, 1)
  | .netError => (base, 1)
  | .timeout => (base, 1)

/-- Did tryUseCache succeed: a truthy entry in the window cache or, failing
that, in the context cache. -/
def analysisCacheHit (win ctx : Cache) (id : String) : Bool :=
  cacheHit win id || cacheHit ctx id

/-- A network failure of the analyze fetch: a rejected promise or a non-ok
response (anything but a parsed ok body). -/
def AnalyzeFetch.isFailure : AnalyzeFetch → Bool
  | .ok _ => false
  | .notOk => true
  | .netError _ => true

/-- A network failure of the product fetch. -/
def ProductFetch.isFailure : ProductFetch → Bool
  | .ok _ => false
  | .notOk => true
  | .netError _ => true

/-- The verdict as the claim words it (a definition following the claim, for
comparison with the code): the text following the first occurrence of
OVERALL VERDICT: up to the end of that line, none when no such line exists. -/
def claimVerdict (text : String) : Option String :=
  match findHeader text.toList ("OVERALL VERDICT:".toList) with
  | some r => some (String.mk (r.takeWhile (fun c => c ≠ '\n')))
  | none => none

/-! ### Sanity checks on concrete inputs -/

example : parseAnalysisText "SUMMARY:" = [] := by decide

example :
    parseAnalysisText "SUMMARY: ok\nKEY RISKS: none" =
      [ ⟨ "Summary", "ok", "purple" ⟩, ⟨ "Key Risks", "none", "red" ⟩ ] := by decide

example :
    parseAnalysisText "KEY RISKS: sugar\nSUMMARY: fine" =
      [ ⟨ "Summary", "fine", "purple" ⟩, ⟨ "Key Risks", "sugar", "red" ⟩ ] := by
  decide

example : extractHealthRating "no rating here" = none := by decide

example :
    extractHealthRating "Health Rating: 7/10\nOVERALL VERDICT: Decent snack" =
      some ⟨ 7, "Decent snack" ⟩ := by decide

example : (extractHealthRating "Rating: 3.5/10").isSome = true := by decide

example : (extractHealthRating "Rating: 3.5/10").map (fun h => h.verdict) =
    some "" := by decide

/-! ### Structural lemmas about parseAnalysisText -/

theorem foldl_push_eq_filterMap (t : List Char) (l : List SectionPattern)
    (acc : List Section) :
    l.foldl
      (fun acc sp =>
        match sectionFor t sp with
        | some s => acc ++ [ s ]
        | none => acc) acc = acc ++ l.filterMap (sectionFor t) := by
  induction l generalizing acc with
  | nil => simp
  | cons hd tl ih =>
    rcases h : sectionFor t hd with _ | s <;>
      simp [List.foldl_cons, h, ih, List.filterMap_cons]

theorem parseAnalysisText_eq_filterMap (text : String) :
    parseAnalysisText text = sectionPatterns.filterMap (sectionFor text.toList) := by
  simpa using foldl_push_eq_filterMap text.toList sectionPatterns []

theorem sectionFor_title {t : List Char} {sp : SectionPattern} {s : Section}
    (h : sectionFor t sp = some s) : s.title = sp.title := by
  unfold sectionFor at h
  rcases hm : matchSection t sp.header with _ | cap <;> rw [hm] at h
  · cases h
  · by_cases h1 : cap.isEmpty <;> simp [h1] at h
    rw [← h.2]

theorem sectionFor_eq_none_iff {t : List Char} {sp : SectionPattern} :
    sectionFor t sp = none ↔
      (matchSection t sp.header).all (fun cap => (jsTrim cap).isEmpty) = true := by
  unfold sectionFor
  rcases hm : matchSection t sp.header with _ | cap
  · simp [Option.all]
  · by_cases h1 : cap.isEmpty
    · have hcap : cap = [] := by simpa using h1
      simp [Option.all, h1, hcap, jsTrim]
    · by_cases h2 : (jsTrim cap).isEmpty <;> simp [Option.all, h1, h2]

theorem sectionPatterns_title_inj :
    ∀ sp1 ∈ sectionPatterns, ∀ sp2 ∈ sectionPatterns,
      sp1.title = sp2.title → sp1 = sp2 := by decide

/-! ### Claim theorems -/

/-- C1 (counterexample): on the text consisting of just the word SUMMARY and
a colon, the Summary pattern matches (the regex succeeds with an empty
capture), yet no Summary section — indeed no section at all — appears in the
result; so a section can be absent even though its pattern matches, refuting
the claimed equivalence. -/
theorem C1_counterexample :
    parseAnalysisText "SUMMARY:" = [] ∧
    (matchSection "SUMMARY:".toList "SUMMARY").isSome = true := by
  decide

/-- C1 (amended): a named section is absent from the result of
parseAnalysisText exactly when its pattern does not match the text or the
captured content of the match is empty after trimming; there is no other
error-recovery behaviour. -/
theorem C1_section_absent_iff (text : String) (sp : SectionPattern)
    (hsp : sp ∈ sectionPatterns) :
    (parseAnalysisText text).all (fun s => !(s.title == sp.title)) = true ↔
      (matchSection text.toList sp.header).all
        (fun cap => (jsTrim cap).isEmpty) = true := by
  rw [← sectionFor_eq_none_iff, parseAnalysisText_eq_filterMap]
  constructor
  · intro hall
    rcases hf : sectionFor text.toList sp with _ | s
    · rfl
    · exfalso
      have hs : s ∈ sectionPatterns.filterMap (sectionFor text.toList) :=
        List.mem_filterMap.mpr ⟨ sp, hsp, hf ⟩
      have hne := List.all_eq_true.mp hall s hs
      simp [sectionFor_title hf] at hne
  · intro hnone
    refine List.all_eq_true.mpr ?_
    intro s hs
    rcases List.mem_filterMap.mp hs with ⟨ sp2, hsp2, hf2 ⟩
    by_cases ht : s.title = sp.title
    · have heq : sp2 = sp :=
        sectionPatterns_title_inj sp2 hsp2 sp hsp (by rw [← sectionFor_title hf2, ht])
      rw [heq, hnone] at hf2
      cases hf2
    · simp [ht]

/-- C1 (witness for the amended theorem): on a text with no section headers
the Summary section is absent. -/
theorem C1_witness :
    (parseAnalysisText "plain text").all (fun s => !(s.title == "Summary")) = true :=
  (C1_section_absent_iff "plain text" ⟨ "SUMMARY", "Summary", "purple" ⟩
    (by decide)).mpr (by decide)

theorem filterMap_map_title_sublist (t : List Char) (l : List SectionPattern) :
    ((l.filterMap (sectionFor t)).map (fun s => s.title)).Sublist
      (l.map (fun sp => sp.title)) := by
  induction l with
  | nil => simp
  | cons hd tl ih =>
    rcases h : sectionFor t hd with _ | s
    · simp only [List.filterMap_cons, h, List.map_cons]
      exact ih.cons _
    · simp only [List.filterMap_cons, h, List.map_cons]
      rw [sectionFor_title h]
      exact ih.cons₂ _

/-- C2: for every input text, the titles of the sections returned by
parseAnalysisText form a sublist of the fixed pattern-order title sequence
Summary, Key Risks, Positive Highlights, Recommendation, Marketing Traps:
the order of the result is dictated by the fixed pattern sequence, never by
where the headers occur in the input. -/
theorem C2_sections_in_pattern_order (text : String) :
    ((parseAnalysisText text).map (fun s => s.title)).Sublist
      [ "Summary", "Key Risks", "Positive Highlights", "Recommendation",
        "Marketing Traps" ] := by
  rw [parseAnalysisText_eq_filterMap]
  simpa [sectionPatterns] using filterMap_map_title_sublist text.toList sectionPatterns

/-- C10 (counterexample): with OVERALL VERDICT: at the end of its line, the
verdict regex of the code skips the newline (the whitespace class matches line
terminators) and captures the next line, here Great, while the claim
prescribes the text up to the end of the OVERALL VERDICT line, here empty. -/
theorem C10_counterexample :
    extractHealthRating "Rating: 7/10\nOVERALL VERDICT:\nGreat" =
      some ⟨ 7, "Great" ⟩ ∧
    claimVerdict "Rating: 7/10\nOVERALL VERDICT:\nGreat" = some "" ∧
    ("Great" : String) ≠ "" := by
  decide

theorem parseNumeral_nonneg (l : List Char) : 0 ≤ parseNumeral l := by
  unfold parseNumeral
  dsimp only
  split <;> positivity

/-- C10 (amended): extractHealthRating returns null exactly when the rating
regex (an optional Health prefix, the word Rating, separators, a decimal
numeral, a slash, and 10) has no match; when it returns a value, the score
is the non-negative number parsed from the leftmost such match, and the
verdict is the trimmed capture of the leftmost match of the pattern
OVERALL VERDICT, optional colon, whitespace (which may cross line breaks),
one or more non-newline characters — or the empty string when that pattern
does not match. -/
theorem C10_rating_extraction (text : String) :
    ((extractHealthRating text).isNone ↔ (findRatingNumeral text.toList).isNone) ∧
    (∀ hr : HealthRating, extractHealthRating text = some hr →
      0 ≤ hr.score ∧
      (∃ num, findRatingNumeral text.toList = some num ∧
        hr.score = parseNumeral num) ∧
      hr.verdict = (match findVerdictCapture text.toList with
        | some cap => String.mk (jsTrim cap)
        | none => "")) := by
  constructor
  · unfold extractHealthRating
    rcases h : findRatingNumeral text.toList with _ | num <;> simp [h]
  · intro hr hhr
    unfold extractHealthRating at hhr
    rcases h : findRatingNumeral text.toList with _ | num <;> rw [h] at hhr
    · cases hhr
    · cases hhr
      refine ⟨ parseNumeral_nonneg num, ⟨ num, rfl, rfl ⟩, rfl ⟩

/-- C10 (witness for the amended theorem): a concrete rating with its
non-negative score. -/
theorem C10_witness :
    0 ≤ (HealthRating.mk 7 "Decent snack").score :=
  ((C10_rating_extraction "Health Rating: 7/10\nOVERALL VERDICT: Decent snack").2
    ⟨ 7, "Decent snack" ⟩ (by decide)).1

/-! ### Reduction lemmas for the page effects -/

theorem runAnalysisEffect_hit_win {win : Cache} (ctx : Cache) {id : String}
    (f : AnalyzeFetch) {v : CacheVal} (hw : win id = some v)
    (hv : v.truthy = true) :
    runAnalysisEffect win ctx id f =
      ⟨ { applyCached ⟨ none, [], true, none ⟩ v with loading := false },
        0, win, ctx ⟩ := by
  unfold runAnalysisEffect
  simp [hw, hv]

theorem runAnalysisEffect_hit_ctx {win ctx : Cache} {id : String}
    (f : AnalyzeFetch) {v : CacheVal} (hw : cacheHit win id = false)
    (hc : ctx id = some v) (hv : v.truthy = true) :
    runAnalysisEffect win ctx id f =
      ⟨ { applyCached ⟨ none, [], true, none ⟩ v with loading := false },
        0, win, ctx ⟩ := by
  unfold runAnalysisEffect runAnalysisEffect.runAnalysisCtx
  rcases hwid : win id with _ | w
  · simp [hwid, hc, hv]
  · have hwv : w.truthy = false := by simpa [cacheHit, hwid] using hw
    simp [hwid, hwv, hc, hv]

theorem runAnalysisEffect_miss {win ctx : Cache} {id : String}
    (f : AnalyzeFetch) (h1 : cacheHit win id = false)
    (h2 : cacheHit ctx id = false) :
    runAnalysisEffect win ctx id f =
      runAnalysisEffect.runAnalysisFetch win ctx id f ⟨ none, [], true, none ⟩ := by
  unfold runAnalysisEffect runAnalysisEffect.runAnalysisCtx
  rcases hwid : win id with _ | w
  · rcases hcid : ctx id with _ | v
    · simp [hwid, hcid]
    · have hv : v.truthy = false := by simpa [cacheHit, hcid] using h2
      simp [hwid, hcid, hv]
  · have hwv : w.truthy = false := by simpa [cacheHit, hwid] using h1
    rcases hcid : ctx id with _ | v
    · simp [hwid, hwv, hcid]
    · have hv : v.truthy = false := by simpa [cacheHit, hcid] using h2
      simp [hwid, hwv, hcid, hv]

theorem runIngredientsEffect_hit {win ctx : Cache} {id : String}
    (f : ProductFetch) (offImg : Option String) {v : CacheVal}
    (hc : ctx id = some v) (hv : v.truthy = true) :
    runIngredientsEffect win ctx id f offImg =
      ⟨ ⟨ some v, false, none ⟩, 0, 0, win, ctx ⟩ := by
  unfold runIngredientsEffect
  simp [hc, hv]

theorem runIngredientsEffect_miss {win ctx : Cache} {id : String}
    (f : ProductFetch) (offImg : Option String)
    (h : cacheHit ctx id = false) :
    runIngredientsEffect win ctx id f offImg =
      runIngredientsEffect.runIngredientsFetch win ctx id f offImg
        ⟨ none, true, none ⟩ := by
  unfold runIngredientsEffect
  rcases hcid : ctx id with _ | v
  · simp [hcid]
  · have hv : v.truthy = false := by simpa [cacheHit, hcid] using h
    simp [hcid, hv]

theorem renderAnalysis_failure_state (msg? : Option String) :
    ∃ m, renderAnalysis ⟨ none, [], false, msg? ⟩ =
      .errorPanel "Analysis Failed" m := by
  unfold renderAnalysis
  rcases msg? with _ | msg
  · simp [jsStrTruthy]
  · by_cases h : msg.isEmpty <;> simp [jsStrTruthy, h]

theorem renderIngredients_failure_state (msg? : Option String) :
    ∃ m, renderIngredients ⟨ none, false, msg? ⟩ =
      .errorPanel "Error Loading Ingredients" m := by
  unfold renderIngredients
  rcases msg? with _ | msg
  · simp [jsStrTruthy]
  · by_cases h : msg.isEmpty <;> simp [jsStrTruthy, h]

/-- C3: for every product id whose fetch actually runs (no truthy
context-cache entry short-circuits it), a non-ok response sets the error
Failed to fetch ingredients and the page renders the Error Loading
Ingredients panel instead of the ingredients view. -/
theorem C3_notok_renders_error_panel (win ctx : Cache) (id : String)
    (offImg : Option String) (hmiss : cacheHit ctx id = false) :
    (runIngredientsEffect win ctx id .notOk offImg).state.error =
      some "Failed to fetch ingredients" ∧
    renderIngredients (runIngredientsEffect win ctx id .notOk offImg).state =
      .errorPanel "Error Loading Ingredients" "Failed to fetch ingredients" := by
  rw [runIngredientsEffect_miss _ _ hmiss]
  unfold runIngredientsEffect.runIngredientsFetch
  refine ⟨ rfl, ?_ ⟩
  unfold renderIngredients
  have hne : ("Failed to fetch ingredients" : String).isEmpty = false := by decide
  simp [jsStrTruthy, hne]

/-- C3 (witness): with empty caches and id 42, a 404-style response shows
the error panel. -/
theorem C3_witness :
    renderIngredients (runIngredientsEffect (fun _ => none) (fun _ => none)
        "42" .notOk none).state =
      .errorPanel "Error Loading Ingredients" "Failed to fetch ingredients" :=
  (C3_notok_renders_error_panel (fun _ => none) (fun _ => none) "42" none rfl).2

/-- C4: when a fetch actually runs (no cache hit short-circuits it), every
network failure — a rejected promise or a non-ok response — surfaces as the
generic panel of its page (Analysis Failed, Error Loading Ingredients),
with exactly one request to the backend issued and, on the ingredients
page, no follow-up image request either: no retry happens. -/
theorem C4_network_failures_surface (win ctx : Cache) (id : String) :
    (∀ f : AnalyzeFetch, analysisCacheHit win ctx id = false →
      f.isFailure = true →
      (runAnalysisEffect win ctx id f).apiFetches = 1 ∧
      ∃ m, renderAnalysis (runAnalysisEffect win ctx id f).state =
        .errorPanel "Analysis Failed" m) ∧
    (∀ (f : ProductFetch) (offImg : Option String),
      cacheHit ctx id = false → f.isFailure = true →
      (runIngredientsEffect win ctx id f offImg).apiFetches = 1 ∧
      (runIngredientsEffect win ctx id f offImg).offFetches = 0 ∧
      ∃ m, renderIngredients (runIngredientsEffect win ctx id f offImg).state =
        .errorPanel "Error Loading Ingredients" m) := by
  constructor
  · intro f hmiss hfail
    have hw : cacheHit win id = false ∧ cacheHit ctx id = false := by
      simpa [analysisCacheHit] using hmiss
    rw [runAnalysisEffect_miss f hw.1 hw.2]
    rcases f with b | _ | msg
    · cases hfail
    · exact ⟨ rfl, renderAnalysis_failure_state _ ⟩
    · exact ⟨ rfl, renderAnalysis_failure_state _ ⟩
  · intro f offImg hmiss hfail
    rw [runIngredientsEffect_miss f offImg hmiss]
    rcases f with b | _ | msg
    · cases hfail
    · exact ⟨ rfl, rfl, renderIngredients_failure_state _ ⟩
    · exact ⟨ rfl, rfl, renderIngredients_failure_state _ ⟩

/-- C4 (witness): with empty caches, a non-ok analyze response issues
exactly one request. -/
theorem C4_witness :
    (runAnalysisEffect (fun _ => none) (fun _ => none) "9" .notOk).apiFetches = 1 :=
  ((C4_network_failures_surface (fun _ => none) (fun _ => none) "9").1
    .notOk rfl rfl).1

/-- C5 (counterexample): the window cache holds a truthy entry for id 42 and
the context cache holds none; the analysis page serves it without a fetch,
but the ingredients page — which writes window.__FD_CACHE__ yet never reads
it — still issues its network fetch, refuting the claim for the
ingredients page. -/
theorem C5_counterexample :
    cacheHit (fun i => if i = "42" then some (CacheVal.arr [ "cached" ]) else none)
        "42" = true ∧
    (runAnalysisEffect
        (fun i => if i = "42" then some (CacheVal.arr [ "cached" ]) else none)
        (fun _ => none) "42" .notOk).apiFetches = 0 ∧
    (runIngredientsEffect
        (fun i => if i = "42" then some (CacheVal.arr [ "cached" ]) else none)
        (fun _ => none) "42" .notOk none).apiFetches = 1 := by
  refine ⟨ rfl, ?_, rfl ⟩
  rw [runAnalysisEffect_hit_win (fun _ => none) AnalyzeFetch.notOk
    (show _ = some (CacheVal.arr [ "cached" ]) from rfl) rfl]

/-- C5 (amended): on the analysis page, whenever either window.__FD_CACHE__
or the result-context cache holds a truthy entry for the id, the page
renders from such a cached entry and issues no network fetch; on the
ingredients page only the result-context cache is consulted — a truthy
context entry yields the cached data with no fetch, while the window cache
is written there but never read. -/
theorem C5_cached_no_fetch (win ctx : Cache) (id : String) :
    (∀ f : AnalyzeFetch, analysisCacheHit win ctx id = true →
      (runAnalysisEffect win ctx id f).apiFetches = 0 ∧
      ∃ v, (win id = some v ∨ ctx id = some v) ∧ v.truthy = true ∧
        (runAnalysisEffect win ctx id f).state =
          { applyCached ⟨ none, [], true, none ⟩ v with loading := false }) ∧
    (∀ (f : ProductFetch) (offImg : Option String) (v : CacheVal),
      ctx id = some v → v.truthy = true →
      (runIngredientsEffect win ctx id f offImg).apiFetches = 0 ∧
      (runIngredientsEffect win ctx id f offImg).offFetches = 0 ∧
      (runIngredientsEffect win ctx id f offImg).state = ⟨ some v, false, none ⟩) := by
  constructor
  · intro f hhit
    rcases hwh : cacheHit win id with _ | _
    · have hch : cacheHit ctx id = true := by
        simpa [analysisCacheHit, hwh] using hhit
      have hv : ∃ v, ctx id = some v ∧ v.truthy = true := by
        unfold cacheHit at hch
        rcases hcid : ctx id with _ | v
        · rw [hcid] at hch; cases hch
        · rw [hcid] at hch; exact ⟨ v, rfl, hch ⟩
      rcases hv with ⟨ v, hcid, hvt ⟩
      rw [runAnalysisEffect_hit_ctx f hwh hcid hvt]
      exact ⟨ rfl, v, Or.inr hcid, hvt, rfl ⟩
    · have hv : ∃ v, win id = some v ∧ v.truthy = true := by
        unfold cacheHit at hwh
        rcases hwid : win id with _ | v
        · rw [hwid] at hwh; cases hwh
        · rw [hwid] at hwh; exact ⟨ v, rfl, hwh ⟩
      rcases hv with ⟨ v, hwid, hvt ⟩
      rw [runAnalysisEffect_hit_win ctx f hwid hvt]
      exact ⟨ rfl, v, Or.inl hwid, hvt, rfl ⟩
  · intro f offImg v hcid hvt
    rw [runIngredientsEffect_hit f offImg hcid hvt]
    exact ⟨ rfl, rfl, rfl ⟩

/-- C5 (witness for the amended theorem): a window-cache entry alone keeps
the analysis page from fetching. -/
theorem C5_witness :
    (runAnalysisEffect
        (fun i => if i = "7" then some (CacheVal.arr [ "s" ]) else none)
        (fun _ => none) "7" .notOk).apiFetches = 0 :=
  ((C5_cached_no_fetch
      (fun i => if i = "7" then some (CacheVal.arr [ "s" ]) else none)
      (fun _ => none) "7").1 .notOk rfl).1

/-- C6 (counterexample): the claim quantifies over every path argument, but
for the empty path the truthiness test  if (path)  skips the separator, so
getApiUrl(PRODUCT, empty) is BASE_URL concatenated with the bare template
and not with template, slash, path as claimed. -/
theorem C6_counterexample :
    getApiUrl ⟨ true, none ⟩ .PRODUCT (some "") = "/api/v1/product" ∧
    ("/api/v1/product" : String) ≠ "" ++ "/api/v1/product" ++ "/" ++ "" := by
  decide

/-- C6 (amended): for every environment and every non-empty path argument,
getApiUrl produces exactly the claimed routes — SEARCH to /api/v1/search,
PRODUCT to /api/v1/product/{id}, ANALYZE to /api/v1/analyze/product/{id}
(and the analysis page requests it with method POST), OCR to /api/v1/ocr,
BARCODE to /api/v1/barcode — each equal to BASE_URL concatenated with the
endpoint template and, for a given non-empty path, a slash and the path. -/
theorem C6_api_routes (e : JsEnv) (id : String) (h : id ≠ "") :
    getApiUrl e .SEARCH none = getBaseUrl e ++ "/api/v1/search" ∧
    getApiUrl e .PRODUCT (some id) =
      getBaseUrl e ++ "/api/v1/product" ++ "/" ++ id ∧
    getApiUrl e .ANALYZE (some id) =
      getBaseUrl e ++ "/api/v1/analyze/product" ++ "/" ++ id ∧
    analyzeRequest e id = (getBaseUrl e ++ "/api/v1/analyze/product" ++ "/" ++ id, "POST") ∧
    getApiUrl e .OCR none = getBaseUrl e ++ "/api/v1/ocr" ∧
    getApiUrl e .BARCODE none = getBaseUrl e ++ "/api/v1/barcode" := by
  have hne : id.isEmpty = false := by
    cases hie : id.isEmpty
    · rfl
    · exact absurd ((String.isEmpty_iff id).mp hie) h
  refine ⟨ rfl, ?_, ?_, ?_, rfl, rfl ⟩ <;>
    simp [getApiUrl, analyzeRequest, endpointTemplate, hne]

/-- C6 (witness for the amended theorem): the product route for id 42 in the
same-origin browser environment. -/
theorem C6_witness :
    getApiUrl ⟨ true, none ⟩ .PRODUCT (some "42") =
      getBaseUrl ⟨ true, none ⟩ ++ "/api/v1/product" ++ "/" ++ "42" :=
  (C6_api_routes ⟨ true, none ⟩ "42" (by decide)).2.1

/-- C7: the transient UI data model is as the spec lists it — a Product
carries exactly a name, a brand, an id and an image URL (two products with
those four fields equal are equal), and an AnalysisResponse carries its list
of free-text sections in the field  analysis_sections  of string-list type
(together with the product name, the two fields determine it). -/
theorem C7_data_model :
    (∀ p q : Product,
      p = q ↔ (p.product_name = q.product_name ∧ p.brand = q.brand ∧
        p.id = q.id ∧ p.image_url = q.image_url)) ∧
    (∀ r : AnalysisResponse,
      r = ⟨ r.product_name, r.analysis_sections ⟩ ∧
      ∃ sections : List String, r.analysis_sections = sections) := by
  constructor
  · intro p q
    constructor
    · rintro rfl
      exact ⟨ rfl, rfl, rfl, rfl ⟩
    · rintro ⟨ h1, h2, h3, h4 ⟩
      cases p; cases q
      simp_all
  · intro r
    exact ⟨ by cases r; rfl, r.analysis_sections, rfl ⟩

/-- C8: a query that trims to nothing makes handleSearch return at once —
the search state is left exactly as it was, no request is issued, and no
cache write happens. -/
theorem C8_empty_query_noop (st : HomeState) (query : String) (f : SearchFetch)
    (h : jsTrim query.toList = []) :
    handleSearch st query f = (st, 0, []) := by
  unfold handleSearch
  rw [h]
  rfl

/-- C8 (witness): a whitespace-only query leaves a concrete state untouched. -/
theorem C8_witness :
    handleSearch ⟨ "", [], false, false, .text ⟩ " \n  " (.ok (some [])) =
      (⟨ "", [], false, false, .text ⟩, 0, []) :=
  C8_empty_query_noop ⟨ "", [], false, false, .text ⟩ " \n  " (.ok (some []))
    (by decide)

/-- C9: handleBarcodeSearch always yields at most one result; it yields
exactly the one product built from the body — with brand defaulting to
Unknown Brand and image URL to the empty string when those fields are falsy
— when the response is ok and both product_name and id are truthy, and an
empty list in every other case (missing fields, non-ok response, network
error, or the 13-second timeout). -/
theorem C9_barcode_single_result (st : HomeState) (barcode : String)
    (f : BarcodeFetch) :
    ((handleBarcodeSearch st barcode f).1.searchResults).length ≤ 1 ∧
    (∀ b : BarcodeBody, f = .ok b →
      (strTruthy b.product_name && strTruthy b.id) = true →
        (handleBarcodeSearch st barcode f).1.searchResults =
          [ ⟨ b.product_name.getD "", jsOr b.brand "Unknown Brand",
              b.id.getD "", jsOr b.image_url "" ⟩ ]) ∧
    (∀ b : BarcodeBody, f = .ok b →
      (strTruthy b.product_name && strTruthy b.id) = false →
        (handleBarcodeSearch st barcode f).1.searchResults = []) ∧
    ((∀ b, f ≠ .ok b) → (handleBarcodeSearch st barcode f).1.searchResults = []) := by
  rcases f with b | s | _ | _
  · by_cases hb : (strTruthy b.product_name && strTruthy b.id) = true
    · refine ⟨ ?_, ?_, ?_, ?_ ⟩
      · simp [handleBarcodeSearch, hb]
      · rintro b2 ⟨ rfl ⟩ _
        simp [handleBarcodeSearch, hb]
      · rintro b2 ⟨ rfl ⟩ hb2
        rw [hb] at hb2
        cases hb2
      · intro hno
        exact absurd rfl (hno b)
    · have hb2 : (strTruthy b.product_name && strTruthy b.id) = false :=
        Bool.not_eq_true _ ▸ Bool.of_not_eq_true hb
      refine ⟨ ?_, ?_, ?_, ?_ ⟩
      · simp [handleBarcodeSearch, hb2]
      · rintro b2 ⟨ rfl ⟩ hbt
        rw [hbt] at hb2
        cases hb2
      · rintro b2 ⟨ rfl ⟩ _
        simp [handleBarcodeSearch, hb2]
      · intro hno
        exact absurd rfl (hno b)
  · exact ⟨ by simp [handleBarcodeSearch], by rintro b2 ⟨ rfl ⟩,
      by rintro b2 ⟨ rfl ⟩, fun _ => by simp [handleBarcodeSearch] ⟩
  · exact ⟨ by simp [handleBarcodeSearch], by rintro b2 ⟨ rfl ⟩,
      by rintro b2 ⟨ rfl ⟩, fun _ => by simp [handleBarcodeSearch] ⟩
  · exact ⟨ by simp [handleBarcodeSearch], by rintro b2 ⟨ rfl ⟩,
      by rintro b2 ⟨ rfl ⟩, fun _ => by simp [handleBarcodeSearch] ⟩

/-- C9 (witness): a well-formed barcode body with missing brand and image
yields the single defaulted product. -/
theorem C9_witness :
    (handleBarcodeSearch ⟨ "", [], false, false, .text ⟩ "8901"
        (.ok ⟨ some "Maggi", some "8901", none, none ⟩)).1.searchResults =
      [ ⟨ (some "Maggi").getD "", jsOr none "Unknown Brand",
          (some "8901").getD "", jsOr none "" ⟩ ] :=
  (C9_barcode_single_result ⟨ "", [], false, false, .text ⟩ "8901"
      (.ok ⟨ some "Maggi", some "8901", none, none ⟩)).2.1
    ⟨ some "Maggi", some "8901", none, none ⟩ rfl (by decide)

end HealthyBites
